import Mathlib

/-!
A shallow embedding of the harvesting core of `export_campaigns.py`
(Klaviyo campaign export): the stats fetcher with its rate-limit retry
loop (`get_campaign_stats`), the metric-id resolver with its cache
(`get_metric_id`), and the pagination / relationship-join / date-window
loop (`get_campaigns_with_messages`).  Remote HTTP traffic is modelled
as explicit response data handed to the functions; numeric JSON values
are modelled as rationals.
-/

namespace KlaviyoExport

/-- One statistics dictionary (`results[k].statistics` in the report
response): a finite map from statistic name to numeric value. -/
def StatsDict : Type := List (String × ℚ)

/-- `stats.get(key, 0)` on a statistics dictionary: value of the first
binding of `key`, defaulting to `0` when the key is missing. -/
def statGet (d : StatsDict) (key : String) : ℚ :=
  match d.find? (fun p => p.1 = key) with
  | some p => p.2
  | none => 0

/-- One response of the report endpoint (`POST /campaign-values-reports/`),
as far as `get_campaign_stats` inspects it: the HTTP status code and the
`data.attributes.results` array. -/
structure StatsResponse where
  status : ℕ
  results : List StatsDict

/-- The normalized statistics record built by `get_campaign_stats`:
the nine named metrics it always returns. -/
structure StatsRecord where
  recipients : ℚ
  opens : ℚ
  opens_unique : ℚ
  clicks : ℚ
  clicks_unique : ℚ
  open_rate : ℚ
  click_rate : ℚ
  bounced : ℚ
  delivered : ℚ
deriving DecidableEq

/-- The all-zero statistics record returned on every unrecoverable
failure path of `get_campaign_stats`. -/
def zeroStats : StatsRecord :=
  { recipients := 0, opens := 0, opens_unique := 0, clicks := 0,
    clicks_unique := 0, open_rate := 0, click_rate := 0,
    bounced := 0, delivered := 0 }

/-- Round a rational to the nearest integer, ties to even: the tie
behaviour of Python's `round` on exact halves. -/
def roundHalfEven (q : ℚ) : ℤ :=
  let f : ℤ := Int.floor q
  let r : ℚ := q - f
  if r < 1/2 then f
  else if 1/2 < r then f + 1
  else if f % 2 = 0 then f else f + 1

/-- Python's `round(x, 2)` on the rational model: round to two decimal
places, ties to even. -/
def pyRound2 (x : ℚ) : ℚ := (roundHalfEven (x * 100) : ℚ) / 100

/-- The success branch of `get_campaign_stats` (lines 274-286): extract
the first result's statistics, converting `open_rate` and `click_rate`
to percentages rounded to two decimals, every other field passed
through with default `0`. -/
def extractStats (stats : StatsDict) : StatsRecord :=
  { recipients := statGet stats "recipients",
    opens := statGet stats "opens",
    opens_unique := statGet stats "opens_unique",
    clicks := statGet stats "clicks",
    clicks_unique := statGet stats "clicks_unique",
    open_rate := pyRound2 (statGet stats "open_rate" * 100),
    click_rate := pyRound2 (statGet stats "click_rate" * 100),
    bounced := statGet stats "bounced",
    delivered := statGet stats "delivered" }

/-- `get_campaign_stats` (lines 194-298).  The remote end is modelled by
`responses`, giving the response to the n-th POST issued by the retry
chain; the n-th POST is the one whose `retry_count` argument is `n`.
Returns the statistics record together with the list of backoff delays
slept (in seconds), in order. -/
def get_campaign_stats (responses : ℕ → StatsResponse) (retry_count : ℕ) :
    StatsRecord × List ℕ :=
  let response := responses retry_count
  if response.status = 429 then
    if h : retry_count < 5 then
      let wait_time := (retry_count + 1) * 5
      let rest := get_campaign_stats responses (retry_count + 1)
      (rest.1, wait_time :: rest.2)
    else
      (zeroStats, [])
  else if response.status ≠ 200 then
    (zeroStats, [])
  else
    match response.results with
    | [] => (zeroStats, [])
    | r :: _ => (extractStats r, [])
termination_by 5 - retry_count
decreasing_by omega

/-- One response of the metrics listing endpoint (`GET /metrics/`), as far
as `get_metric_id` inspects it: the HTTP status code and the ids of the
entries of the `data` array. -/
structure MetricsResponse where
  status : ℕ
  data : List String

/-- Outcome of one call to `get_metric_id`: the returned string, the
value of the module-level cache `_METRIC_ID_CACHE` after the call, and
the number of GET requests the call issued (0 or 1). -/
structure MetricCallResult where
  value : String
  cache : Option String
  requests : ℕ
deriving DecidableEq

/-- Python truthiness of `_METRIC_ID_CACHE`: `None` and the empty string
are falsy. -/
def cacheTruthy (cache : Option String) : Bool :=
  match cache with
  | none => false
  | some s => s ≠ ""

/-- `get_metric_id` (lines 43-79).  `cache` is the value of the global
`_METRIC_ID_CACHE` when the call starts; `resp` is the response the
metrics endpoint would give if this call issues its GET.  On a truthy
cache the cached value is returned with no request; otherwise one GET is
issued, a 200 with a non-empty `data` array caches and returns the first
entry's id, and every failure path returns the sentinel `"PLACEHOLDER"`
without touching the cache. -/
def get_metric_id (resp : MetricsResponse) (cache : Option String) :
    MetricCallResult :=
  if cacheTruthy cache then
    { value := cache.getD "", cache := cache, requests := 0 }
  else if resp.status ≠ 200 then
    { value := "PLACEHOLDER", cache := cache, requests := 1 }
  else
    match resp.data with
    | m :: _ => { value := m, cache := some m, requests := 1 }
    | [] => { value := "PLACEHOLDER", cache := cache, requests := 1 }

/-- Two consecutive calls to `get_metric_id` in one process, starting
from an empty cache: the second call sees the cache the first call left.
Returns the two returned values and the total number of GET requests. -/
def metricIdTwice (resp1 resp2 : MetricsResponse) :
    String × String × ℕ :=
  let first := get_metric_id resp1 none
  let second := get_metric_id resp2 first.cache
  (first.value, second.value, first.requests + second.requests)

/-- One campaign object of a listing-page `data` array, as far as
`get_campaigns_with_messages` inspects it.  Attribute strings use `""`
for an absent (or JSON-null) attribute, matching the `.get(..., "")`
defaults; `relMessageIds` is the id list under
`relationships.campaign-messages.data` (empty when the relationship
section is absent or empty, which the code treats alike). -/
structure RawCampaign where
  id : String
  name : String
  status : String
  created_at : String
  send_time : String
  relMessageIds : List String
deriving DecidableEq

/-- One entry of a listing-page `included` array: its `type`, `id`, and
the `attributes.content` dictionary (string-valued). -/
structure IncludedItem where
  type : String
  id : String
  content : List (String × String)
deriving DecidableEq

/-- `content.get(key, "")` on an included item's content dictionary. -/
def contentGet (content : List (String × String)) (key : String) : String :=
  match content.find? (fun p => p.1 = key) with
  | some p => p.2
  | none => ""

/-- The per-campaign dictionary `campaign_info` accumulated by
`get_campaigns_with_messages`: the four content-derived fields start as
`None` (here `none`) and are only ever set by the included-section join. -/
structure CampaignInfo where
  campaign_id : String
  campaign_name : String
  status : String
  created_at : String
  send_time : String
  message_id : Option String
  subject : Option String
  preview_text : Option String
  from_email : Option String
  from_label : Option String
deriving DecidableEq

/-- Lines 113-132: build the `campaign_info` dictionary for one campaign
of a page's `data` array.  `message_id` is the first id of the
`campaign-messages` relationship, `None` when there is none; the content
fields start as `None`. -/
def mkCampaignInfo (c : RawCampaign) : CampaignInfo :=
  { campaign_id := c.id,
    campaign_name := c.name,
    status := c.status,
    created_at := c.created_at,
    send_time := c.send_time,
    message_id := c.relMessageIds.head?,
    subject := none,
    preview_text := none,
    from_email := none,
    from_label := none }

/-- Lines 142-146: copy the content fields of an included
campaign-message onto a matching `campaign_info`.  A key missing from
the content dictionary yields the empty string. -/
def updateContent (ci : CampaignInfo) (item : IncludedItem) : CampaignInfo :=
  { ci with
    subject := some (contentGet item.content "subject"),
    preview_text := some (contentGet item.content "preview_text"),
    from_email := some (contentGet item.content "from_email"),
    from_label := some (contentGet item.content "from_label") }

/-- Lines 139-147: walk the accumulated `campaigns_data` in order and
update the first record whose `message_id` equals the included item's
id, leaving every other record unchanged (`break` after the first hit). -/
def updateFirstMatch (acc : List CampaignInfo) (item : IncludedItem) :
    List CampaignInfo :=
  match acc with
  | [] => []
  | ci :: rest =>
      if ci.message_id = some item.id then updateContent ci item :: rest
      else ci :: updateFirstMatch rest item

/-- Lines 135-147: process one entry of a page's `included` array
against the accumulated records; entries whose type is not
`campaign-message` are ignored. -/
def applyIncluded (acc : List CampaignInfo) (item : IncludedItem) :
    List CampaignInfo :=
  if item.type = "campaign-message" then updateFirstMatch acc item
  else acc

/-- One response of the campaigns listing endpoint: HTTP status, the
`data` array, the `included` array, and `links.next` (absent or a URL
string; the loop continues only on a truthy URL). -/
structure PageResponse where
  status : ℕ
  data : List RawCampaign
  included : List IncludedItem
  next : Option String
deriving DecidableEq

/-- Python truthiness of `links.next`: absent and `""` both end the loop. -/
def nextTruthy (next : Option String) : Bool :=
  match next with
  | none => false
  | some s => s ≠ ""

/-- Lines 101-153: the pagination loop of `get_campaigns_with_messages`.
`pages` gives, in order, the responses the server returns to the
successive GETs of the chain of `links.next` URLs.  Each iteration
appends the page's campaigns to the accumulator, joins the page's
included campaign-messages against the whole accumulator, and continues
only when the page succeeded and carries a truthy `links.next`.  Returns
the accumulated `campaigns_data` and the number of page GETs issued. -/
def harvestPages (pages : List PageResponse) (acc : List CampaignInfo) :
    List CampaignInfo × ℕ :=
  match pages with
  | [] => (acc, 0)
  | page :: rest =>
      if page.status ≠ 200 then (acc, 1)
      else
        let acc1 := acc ++ page.data.map mkCampaignInfo
        let acc2 := page.included.foldl applyIncluded acc1
        if nextTruthy page.next then
          let r := harvestPages rest acc2
          (r.1, r.2 + 1)
        else (acc2, 1)

/-- Lines 161-181: the effective timestamp the date filter compares.
`parse` models `datetime.fromisoformat` (after the `Z` replacement) on
the instant scale: `none` when parsing raises.  The code consults
`created_at` only when `send_time` is falsy (absent/empty); a truthy but
unparseable `send_time` yields `none` with no fallback, and a record
with neither field yields `none`. -/
def effectiveTimestamp (parse : String → Option ℤ) (c : CampaignInfo) :
    Option ℤ :=
  if c.send_time ≠ "" then parse c.send_time
  else if c.created_at ≠ "" then parse c.created_at
  else none

/-- Lines 161-181: the inclusion decision of the date filter — keep the
record exactly when its effective timestamp parses and is at or after
the cutoff (`send_date >= months_ago`); every `none` path is excluded. -/
def dateFilterKeep (parse : String → Option ℤ) (cutoff : ℤ)
    (c : CampaignInfo) : Bool :=
  match effectiveTimestamp parse c with
  | some d => cutoff ≤ d
  | none => false

/-- Lines 155-191: the filtering pass over the accumulated campaigns. -/
def filterCampaigns (parse : String → Option ℤ) (cutoff : ℤ)
    (cs : List CampaignInfo) : List CampaignInfo :=
  cs.filter (dateFilterKeep parse cutoff)

/-- Modelled from the spec (claim C3's reading of the fallback chain):
effective timestamp is `send_time` when present AND parseable, else
`created_at` when present and parseable — i.e. an unparseable
`send_time` still falls back to `created_at`.  This is the
spec-literal variant, to be compared with `effectiveTimestamp` above. -/
def effectiveTimestampSpec (parse : String → Option ℤ) (c : CampaignInfo) :
    Option ℤ :=
  match (if c.send_time ≠ "" then parse c.send_time else none) with
  | some d => some d
  | none => if c.created_at ≠ "" then parse c.created_at else none

/-- Modelled from the spec: the inclusion decision claim C3 describes,
built on `effectiveTimestampSpec`. -/
def dateFilterKeepSpec (parse : String → Option ℤ) (cutoff : ℤ)
    (c : CampaignInfo) : Bool :=
  match effectiveTimestampSpec parse c with
  | some d => cutoff ≤ d
  | none => false

/-- A campaign record with given `send_time` and `created_at` and every
other field at its freshly-parsed default, used to instantiate the
date-filter facts on concrete inputs. -/
def testCampaign (st ca : String) : CampaignInfo :=
  { campaign_id := "c1",
    campaign_name := "n1",
    status := "Sent",
    created_at := ca,
    send_time := st,
    message_id := none,
    subject := none,
    preview_text := none,
    from_email := none,
    from_label := none }

/-! ### Helper lemmas about the retry loop of `get_campaign_stats` -/

lemma gcs_shape (responses : ℕ → StatsResponse) (rc : ℕ) :
    (get_campaign_stats responses rc).1 = zeroStats ∨
    ∃ k d rest, (responses k).status = 200 ∧ (responses k).results = d :: rest ∧
      (get_campaign_stats responses rc).1 = extractStats d := by
  rw [get_campaign_stats.eq_def]
  by_cases h1 : (responses rc).status = 429
  · simp only [h1, if_true]
    by_cases h2 : rc < 5
    · simp only [dif_pos h2]
      exact gcs_shape responses (rc + 1)
    · simp [dif_neg h2]
  · simp only [h1, if_false]
    by_cases h2 : (responses rc).status = 200
    · simp only [h2]
      cases hres : (responses rc).results with
      | nil => simp
      | cons d rest =>
          right
          exact ⟨rc, d, rest, h2, hres, by simp⟩
    · simp [h2]
termination_by 5 - rc
decreasing_by omega

lemma gcs_delay_iff (responses : ℕ → StatsResponse) (rc k : ℕ) :
    k < (get_campaign_stats responses rc).2.length ↔
    (rc + k < 5 ∧ ∀ j, rc ≤ j → j ≤ rc + k → (responses j).status = 429) := by
  rw [get_campaign_stats.eq_def]
  by_cases h1 : (responses rc).status = 429
  · simp only [h1, if_true]
    by_cases h2 : rc < 5
    · simp only [dif_pos h2, List.length_cons]
      cases k with
      | zero =>
          constructor
          · intro _
            refine ⟨by omega, ?_⟩
            intro j hj1 hj2
            have : j = rc := by omega
            rw [this]; exact h1
          · intro _; omega
      | succ k =>
          have ih := gcs_delay_iff responses (rc + 1) k
          constructor
          · intro h
            have h3 : k < (get_campaign_stats responses (rc + 1)).2.length := by
              simpa using Nat.lt_of_succ_lt_succ h
            obtain ⟨hb, hall⟩ := ih.mp h3
            refine ⟨by omega, ?_⟩
            intro j hj1 hj2
            by_cases hjrc : j = rc
            · rw [hjrc]; exact h1
            · exact hall j (by omega) (by omega)
          · intro ⟨hb, hall⟩
            have h3 : k < (get_campaign_stats responses (rc + 1)).2.length :=
              ih.mpr ⟨by omega, fun j hj1 hj2 => hall j (by omega) (by omega)⟩
            simpa using Nat.succ_lt_succ h3
    · simp only [dif_neg h2]
      simp only [List.length_nil]
      constructor
      · intro h; omega
      · intro ⟨hb, _⟩; omega
  · simp only [h1, if_false]
    have hfalse : ¬ (rc + k < 5 ∧ ∀ j, rc ≤ j → j ≤ rc + k → (responses j).status = 429) := by
      intro ⟨_, hall⟩
      exact h1 (hall rc (le_refl rc) (by omega))
    by_cases h2 : (responses rc).status = 200
    · simp only [h2]
      cases hres : (responses rc).results with
      | nil => simpa [hres] using hfalse
      | cons d rest => simpa [hres] using hfalse
    · rw [if_pos h2]
      simpa using hfalse
termination_by 5 - rc
decreasing_by omega

lemma gcs_success (responses : ℕ → StatsResponse) (rc : ℕ) (d : StatsDict)
    (rest : List StatsDict) (h200 : (responses rc).status = 200)
    (hres : (responses rc).results = d :: rest) :
    get_campaign_stats responses rc = (extractStats d, []) := by
  rw [get_campaign_stats.eq_def]
  simp [h200, hres]

lemma gcs_other (responses : ℕ → StatsResponse) (rc : ℕ)
    (h429 : (responses rc).status ≠ 429) (h200 : (responses rc).status ≠ 200) :
    get_campaign_stats responses rc = (zeroStats, []) := by
  rw [get_campaign_stats.eq_def]
  rw [if_neg h429, if_pos h200]

lemma gcs_empty (responses : ℕ → StatsResponse) (rc : ℕ)
    (h200 : (responses rc).status = 200) (hres : (responses rc).results = []) :
    get_campaign_stats responses rc = (zeroStats, []) := by
  rw [get_campaign_stats.eq_def]
  simp [h200, hres]

lemma gcs_retry_step (responses : ℕ → StatsResponse) (rc : ℕ)
    (h429 : (responses rc).status = 429) (hlt : rc < 5) :
    get_campaign_stats responses rc =
      ((get_campaign_stats responses (rc + 1)).1,
        (rc + 1) * 5 :: (get_campaign_stats responses (rc + 1)).2) := by
  conv_lhs => rw [get_campaign_stats.eq_def]
  simp [h429, hlt]

lemma gcs_giveup (responses : ℕ → StatsResponse) (rc : ℕ)
    (h429 : (responses rc).status = 429) (hge : ¬ rc < 5) :
    get_campaign_stats responses rc = (zeroStats, []) := by
  rw [get_campaign_stats.eq_def]
  simp [h429, hge]

lemma gcs_all429 (responses : ℕ → StatsResponse)
    (hall : ∀ k, k ≤ 5 → (responses k).status = 429) :
    get_campaign_stats responses 0 = (zeroStats, [5, 10, 15, 20, 25]) := by
  have e5 := gcs_giveup responses 5 (hall 5 (by norm_num)) (by norm_num)
  have e4 := gcs_retry_step responses 4 (hall 4 (by norm_num)) (by norm_num)
  have e3 := gcs_retry_step responses 3 (hall 3 (by norm_num)) (by norm_num)
  have e2 := gcs_retry_step responses 2 (hall 2 (by norm_num)) (by norm_num)
  have e1 := gcs_retry_step responses 1 (hall 1 (by norm_num)) (by norm_num)
  have e0 := gcs_retry_step responses 0 (hall 0 (by norm_num)) (by norm_num)
  rw [e0, e1, e2, e3, e4, e5]

/-! ### Claim theorems for the stats fetcher -/

/-- C1: `get_campaign_stats` is a total function of the record id and the
remote response sequence (modelled directly as a Lean function, hence it
never raises) and always yields a complete nine-field `StatsRecord`:
either the all-zero record, or the normalized first result of a
successful response.  Moreover every unrecoverable failure path — rate
limit on every attempt up to the cap, any other non-success response,
and a success with an empty results array — yields exactly the all-zero
record, never an absent value. -/
theorem claim_C1_stats_fetch_total_never_null :
    (∀ responses rc, (get_campaign_stats responses rc).1 = zeroStats ∨
      ∃ k d rest, (responses k).status = 200 ∧ (responses k).results = d :: rest ∧
        (get_campaign_stats responses rc).1 = extractStats d) ∧
    (∀ responses, (∀ k, k ≤ 5 → (responses k).status = 429) →
      (get_campaign_stats responses 0).1 = zeroStats) ∧
    (∀ responses rc, (responses rc).status ≠ 429 → (responses rc).status ≠ 200 →
      (get_campaign_stats responses rc).1 = zeroStats) ∧
    (∀ responses rc, (responses rc).status = 200 → (responses rc).results = [] →
      (get_campaign_stats responses rc).1 = zeroStats) := by
  refine ⟨gcs_shape, ?_, ?_, ?_⟩
  · intro responses hall
    rw [gcs_all429 responses hall]
  · intro responses rc h1 h2
    rw [gcs_other responses rc h1 h2]
  · intro responses rc h1 h2
    rw [gcs_empty responses rc h1 h2]

/-- Witness for C1 at concrete inputs: all-429 run, a 500 response, and
a 200 response with empty results all yield the all-zero record. -/
theorem claim_C1_witness :
    (get_campaign_stats (fun _ => ⟨429, []⟩) 0).1 = zeroStats ∧
    (get_campaign_stats (fun _ => ⟨500, []⟩) 0).1 = zeroStats ∧
    (get_campaign_stats (fun _ => ⟨200, []⟩) 0).1 = zeroStats :=
  ⟨claim_C1_stats_fetch_total_never_null.2.1 (fun _ => ⟨429, []⟩) (fun _ _ => rfl),
   claim_C1_stats_fetch_total_never_null.2.2.1 (fun _ => ⟨500, []⟩) 0
     (by decide) (by decide),
   claim_C1_stats_fetch_total_never_null.2.2.2 (fun _ => ⟨200, []⟩) 0 rfl rfl⟩

/-- C4: the 429 retry path.  A run whose first two responses are 429 and
whose third succeeds with results returns the normalized first result
after backoff delays 5 and 10 seconds (success on the third attempt); a
run answering 429 on every attempt up to the 5-retry cap sleeps the full
arithmetic progression 5, 10, 15, 20, 25 and returns the all-zero
record. -/
theorem claim_C4_rate_limit_backoff :
    (∀ responses d rest,
      (responses 0).status = 429 → (responses 1).status = 429 →
      (responses 2).status = 200 → (responses 2).results = d :: rest →
      get_campaign_stats responses 0 = (extractStats d, [5, 10])) ∧
    (∀ responses, (∀ k, k ≤ 5 → (responses k).status = 429) →
      get_campaign_stats responses 0 = (zeroStats, [5, 10, 15, 20, 25])) := by
  constructor
  · intro responses d rest h0 h1 h2 hres
    have e2 := gcs_success responses 2 d rest h2 hres
    have e1 := gcs_retry_step responses 1 h1 (by norm_num)
    have e0 := gcs_retry_step responses 0 h0 (by norm_num)
    rw [e0, e1, e2]
  · exact gcs_all429

/-- Witness for C4: a concrete run with two 429s then a 200 carrying one
result, and a concrete run of nothing but 429s. -/
theorem claim_C4_witness :
    get_campaign_stats
        (fun n => if n < 2 then ⟨429, []⟩ else ⟨200, [ [ ( "recipients", (3 : ℚ) ) ] ] ⟩) 0 =
      (extractStats [ ( "recipients", (3 : ℚ) ) ], [5, 10]) ∧
    get_campaign_stats (fun _ => ⟨429, []⟩) 0 = (zeroStats, [5, 10, 15, 20, 25]) :=
  ⟨claim_C4_rate_limit_backoff.1 _ _ _ rfl rfl rfl rfl,
   claim_C4_rate_limit_backoff.2 _ (fun _ _ => rfl)⟩

/-- C5 counterexample: a 429 on the metrics GET does NOT trigger the
retry policy — `get_metric_id` issues exactly one request and returns
the sentinel immediately, and the pagination loop likewise aborts on a
429 page instead of retrying; only the stats POST retries on 429. -/
theorem claim_C5_counterexample :
    get_metric_id ⟨429, []⟩ none =
      { value := "PLACEHOLDER", cache := none, requests := 1 } ∧
    harvestPages [ ⟨429, [], [], none⟩ ] [] = ([], 1) :=
  ⟨rfl, rfl⟩

/-- C5 amended: only the stats fetch retries, and there exactly on HTTP
429 within the cap.  Any stats response that is neither 429 nor 200
returns the all-zero record immediately with no retry; the k-th backoff
sleep of a stats fetch happens iff the first k+1 responses were all 429
and the cap was not yet reached; a 429 on the metrics GET is handled
like any other non-success — one single request, sentinel returned, no
retry — and a 429 on a listing-page GET aborts the pagination with the
records accumulated so far. -/
theorem claim_C5_retry_only_stats_fetch_on_429 :
    (∀ responses rc, (responses rc).status ≠ 429 → (responses rc).status ≠ 200 →
      get_campaign_stats responses rc = (zeroStats, [])) ∧
    (∀ responses k, k < (get_campaign_stats responses 0).2.length ↔
      (k < 5 ∧ ∀ j, j ≤ k → (responses j).status = 429)) ∧
    (∀ resp cache, cacheTruthy cache = false → resp.status = 429 →
      get_metric_id resp cache =
        { value := "PLACEHOLDER", cache := cache, requests := 1 }) ∧
    (∀ page rest acc, page.status = 429 →
      harvestPages (page :: rest) acc = (acc, 1)) := by
  refine ⟨gcs_other, ?_, ?_, ?_⟩
  · intro responses k
    simpa using gcs_delay_iff responses 0 k
  · intro resp cache hc h429
    simp [get_metric_id, hc, h429]
  · intro page rest acc h429
    simp [harvestPages, h429]

/-- Witness for the amended C5: a 500 stats response is answered
immediately with the all-zero record and no sleep; an all-429 stats run
does sleep at least once; a 429 metric lookup costs one request and
yields the sentinel; a 429 first page aborts the harvest empty. -/
theorem claim_C5_amended_witness :
    get_campaign_stats (fun _ => ⟨500, []⟩) 0 = (zeroStats, []) ∧
    0 < (get_campaign_stats (fun _ => ⟨429, []⟩) 0).2.length ∧
    get_metric_id ⟨429, []⟩ none =
      { value := "PLACEHOLDER", cache := none, requests := 1 } ∧
    harvestPages [ ⟨429, [], [], some "u"⟩ ] [] = ([], 1) :=
  ⟨claim_C5_retry_only_stats_fetch_on_429.1 (fun _ => ⟨500, []⟩) 0
     (by decide) (by decide),
   (claim_C5_retry_only_stats_fetch_on_429.2.1 (fun _ => ⟨429, []⟩) 0).mpr
     ⟨by norm_num, fun _ _ => rfl⟩,
   claim_C5_retry_only_stats_fetch_on_429.2.2.1 ⟨429, []⟩ none rfl rfl,
   claim_C5_retry_only_stats_fetch_on_429.2.2.2 ⟨429, [], [], some "u"⟩ [] [] rfl⟩

/-- C6: on a 200 response whose results array is non-empty, the returned
record is the first result's statistics with `open_rate` and
`click_rate` scaled by 100 and rounded to two decimals, every other
field passed through unchanged, and any key missing from the statistics
dictionary defaulting to 0. -/
theorem claim_C6_success_normalization :
    ∀ responses rc d rest, (responses rc).status = 200 →
      (responses rc).results = d :: rest →
      ((get_campaign_stats responses rc).1.recipients = statGet d "recipients" ∧
       (get_campaign_stats responses rc).1.opens = statGet d "opens" ∧
       (get_campaign_stats responses rc).1.opens_unique = statGet d "opens_unique" ∧
       (get_campaign_stats responses rc).1.clicks = statGet d "clicks" ∧
       (get_campaign_stats responses rc).1.clicks_unique = statGet d "clicks_unique" ∧
       (get_campaign_stats responses rc).1.open_rate =
         pyRound2 (statGet d "open_rate" * 100) ∧
       (get_campaign_stats responses rc).1.click_rate =
         pyRound2 (statGet d "click_rate" * 100) ∧
       (get_campaign_stats responses rc).1.bounced = statGet d "bounced" ∧
       (get_campaign_stats responses rc).1.delivered = statGet d "delivered") ∧
      (∀ key, d.find? (fun p => p.1 = key) = none → statGet d key = 0) := by
  intro responses rc d rest h200 hres
  have e : (get_campaign_stats responses rc).1 = extractStats d := by
    rw [gcs_success responses rc d rest h200 hres]
  refine ⟨⟨?_, ?_, ?_, ?_, ?_, ?_, ?_, ?_, ?_⟩, ?_⟩
  all_goals first
    | (rw [e]; rfl)
    | (intro key h; simp [statGet, h])

/-- Witness for C6: a raw `open_rate` of 0.2345 is emitted as 23.45, and
the missing `recipients` key defaults to 0. -/
theorem claim_C6_witness :
    (get_campaign_stats (fun _ => ⟨200, [ [ ( "open_rate", (2345 : ℚ)/10000 ) ] ] ⟩) 0).1.open_rate =
      2345/100 ∧
    (get_campaign_stats (fun _ => ⟨200, [ [ ( "open_rate", (2345 : ℚ)/10000 ) ] ] ⟩) 0).1.recipients = 0 := by
  have h := claim_C6_success_normalization
    (fun _ => ⟨200, [ [ ( "open_rate", (2345 : ℚ)/10000 ) ] ] ⟩) 0
    [ ( "open_rate", (2345 : ℚ)/10000 ) ] [] rfl rfl
  constructor
  · rw [h.1.2.2.2.2.2.1]
    norm_num [statGet, pyRound2, roundHalfEven]
  · rw [h.1.1]
    rfl

/-! ### Claim theorems for the metric-id resolver -/

/-- C2 counterexample: when the first `get_metric_id` call fails (here a
500 response), the sentinel is NOT cached, so a second call issues a
second GET — two calls make two network requests, not the single one the
claim asserts. -/
theorem claim_C2_counterexample :
    (metricIdTwice ⟨500, []⟩ ⟨500, []⟩).2.2 = 2 ∧
    (metricIdTwice ⟨500, []⟩ ⟨500, []⟩).1 = "PLACEHOLDER" := by
  constructor <;> rfl

/-- C2 amended: only a successful resolution is cached.  After a first
call that succeeds with a non-empty (and non-empty-string) first id, a
second call returns the cached id with no further request (one request
total); a failed call returns the sentinel `"PLACEHOLDER"` and leaves
the cache empty, so a second call after a failure issues a fresh request
(two requests total when both fail). -/
theorem claim_C2_cache_on_success_only :
    (∀ resp1 resp2 m rest, resp1.status = 200 → resp1.data = m :: rest → m ≠ "" →
      metricIdTwice resp1 resp2 = (m, m, 1)) ∧
    (∀ resp, resp.status ≠ 200 →
      get_metric_id resp none =
        { value := "PLACEHOLDER", cache := none, requests := 1 }) ∧
    (∀ resp, resp.status = 200 → resp.data = [] →
      get_metric_id resp none =
        { value := "PLACEHOLDER", cache := none, requests := 1 }) ∧
    (∀ resp1 resp2, resp1.status ≠ 200 → resp2.status ≠ 200 →
      (metricIdTwice resp1 resp2).2.2 = 2) := by
  refine ⟨?_, ?_, ?_, ?_⟩
  · intro resp1 resp2 m rest h200 hdata hm
    simp [metricIdTwice, get_metric_id, cacheTruthy, h200, hdata, hm]
  · intro resp h
    simp [get_metric_id, cacheTruthy, h]
  · intro resp h200 hdata
    simp [get_metric_id, cacheTruthy, h200, hdata]
  · intro resp1 resp2 h1 h2
    simp [metricIdTwice, get_metric_id, cacheTruthy, h1, h2]

/-- Witness for the amended C2: a successful first call (id `"m1"`)
makes the pair of calls cost one request and both return `"m1"`; two
failing calls cost two requests. -/
theorem claim_C2_witness :
    metricIdTwice ⟨200, [ "m1" ]⟩ ⟨200, [ "m1" ]⟩ = ( "m1", "m1", 1) ∧
    (metricIdTwice ⟨503, []⟩ ⟨503, []⟩).2.2 = 2 :=
  ⟨claim_C2_cache_on_success_only.1 ⟨200, [ "m1" ]⟩ ⟨200, [ "m1" ]⟩ "m1" [] rfl rfl
     (by decide),
   claim_C2_cache_on_success_only.2.2.2 ⟨503, []⟩ ⟨503, []⟩ (by decide) (by decide)⟩

/-! ### Claim theorems for the date-window filter -/

/-- C3 counterexample: the claim's fallback chain says a present but
unparseable `send_time` falls back to a parseable `created_at`; the code
instead excludes such a record outright.  With a parser that parses only
the `created_at` string, the spec-literal filter includes the record
while the code's filter excludes it. -/
theorem claim_C3_counterexample :
    dateFilterKeepSpec
        (fun s => if s = "2024-06-01T00:00:00+00:00" then some 0 else none) 0
        (testCampaign "garbage" "2024-06-01T00:00:00+00:00") = true ∧
    dateFilterKeep
        (fun s => if s = "2024-06-01T00:00:00+00:00" then some 0 else none) 0
        (testCampaign "garbage" "2024-06-01T00:00:00+00:00") = false := by
  constructor <;> rfl

/-- C3 amended: the effective timestamp is `send_time`'s parse whenever
`send_time` is present (non-empty) — a parse failure there excludes the
record with NO fallback to `created_at`; `created_at` is consulted only
when `send_time` is absent/empty; with neither field the record is
excluded; and every unparseable outcome is excluded (fail closed). -/
theorem claim_C3_fail_closed_no_fallback_on_parse_error :
    (∀ parse c, c.send_time ≠ "" → effectiveTimestamp parse c = parse c.send_time) ∧
    (∀ parse c, c.send_time = "" → c.created_at ≠ "" →
      effectiveTimestamp parse c = parse c.created_at) ∧
    (∀ parse c, c.send_time = "" → c.created_at = "" →
      effectiveTimestamp parse c = none) ∧
    (∀ parse cutoff c, effectiveTimestamp parse c = none →
      dateFilterKeep parse cutoff c = false) := by
  refine ⟨?_, ?_, ?_, ?_⟩
  · intro parse c h
    simp [effectiveTimestamp, h]
  · intro parse c h1 h2
    simp [effectiveTimestamp, h1, h2]
  · intro parse c h1 h2
    simp [effectiveTimestamp, h1, h2]
  · intro parse cutoff c h
    simp [dateFilterKeep, h]

/-- Witness for the amended C3 on concrete records and a parser that
parses nothing: unparseable `send_time` (even with a `created_at`
present), `created_at`-only, and no-date records are all excluded. -/
theorem claim_C3_witness :
    effectiveTimestamp (fun _ => none) (testCampaign "garbage" "2024") = none ∧
    effectiveTimestamp (fun _ => none) (testCampaign "" "2024") = none ∧
    effectiveTimestamp (fun _ => none) (testCampaign "" "") = none ∧
    dateFilterKeep (fun _ => none) 0 (testCampaign "garbage" "2024") = false :=
  ⟨(claim_C3_fail_closed_no_fallback_on_parse_error.1
      (fun _ => none) (testCampaign "garbage" "2024") (by decide)).trans rfl,
   (claim_C3_fail_closed_no_fallback_on_parse_error.2.1
      (fun _ => none) (testCampaign "" "2024") rfl (by decide)).trans rfl,
   claim_C3_fail_closed_no_fallback_on_parse_error.2.2.1
      (fun _ => none) (testCampaign "" "") rfl rfl,
   claim_C3_fail_closed_no_fallback_on_parse_error.2.2.2
      (fun _ => none) 0 (testCampaign "garbage" "2024") rfl⟩

/-- C8: whenever the effective timestamp parses, the record is kept
exactly when that timestamp is at or after the cutoff — an inclusive
lower bound and no upper bound. -/
theorem claim_C8_inclusive_lower_bound :
    ∀ parse cutoff c t, effectiveTimestamp parse c = some t →
      (dateFilterKeep parse cutoff c = true ↔ cutoff ≤ t) := by
  intro parse cutoff c t h
  simp [dateFilterKeep, h]

/-- Witness for C8: a record whose `send_time` parses to exactly the
cutoff instant is included. -/
theorem claim_C8_witness :
    dateFilterKeep (fun s => if s = "2024-04-14T12:00:00+00:00" then some 100 else none)
      100 (testCampaign "2024-04-14T12:00:00+00:00" "") = true :=
  (claim_C8_inclusive_lower_bound
      (fun s => if s = "2024-04-14T12:00:00+00:00" then some 100 else none)
      100 (testCampaign "2024-04-14T12:00:00+00:00" "") 100 rfl).mpr (le_refl 100)

/-! ### Helper lemmas for the pagination loop and the included-section join -/

lemma harvest_count_le (pages : List PageResponse) :
    ∀ acc, (harvestPages pages acc).2 ≤ pages.length := by
  induction pages with
  | nil => intro acc; simp [harvestPages]
  | cons page rest ih =>
      intro acc
      simp only [harvestPages, List.length_cons]
      by_cases hst : page.status ≠ 200
      · rw [if_pos hst]; omega
      · rw [if_neg hst]
        by_cases hn : nextTruthy page.next = true
        · simp only [hn, if_true]
          have := ih (page.included.foldl applyIncluded
            (acc ++ page.data.map mkCampaignInfo))
          omega
        · simp only [hn]
          simp only [Bool.false_eq_true, if_false]
          omega

lemma updateFirstMatch_set :
    ∀ (acc : List CampaignInfo) (item : IncludedItem) (i : ℕ) (hi : i < acc.length),
      (acc.get ⟨i, hi⟩).message_id = some item.id →
      (∀ j (hj : j < acc.length), j < i → (acc.get ⟨j, hj⟩).message_id ≠ some item.id) →
      updateFirstMatch acc item = acc.set i (updateContent (acc.get ⟨i, hi⟩) item) := by
  intro acc
  induction acc with
  | nil => intro item i hi; exact absurd hi (by simp)
  | cons ci rest ih =>
      intro item i hi hmatch hfirst
      cases i with
      | zero =>
          simp only [List.get] at hmatch
          simp [updateFirstMatch, hmatch]
      | succ i =>
          have hne : ci.message_id ≠ some item.id :=
            hfirst 0 (by simp) (Nat.succ_pos i)
          have hi2 : i < rest.length := by
            simpa using Nat.lt_of_succ_lt_succ hi
          have hmatch2 : (rest.get ⟨i, hi2⟩).message_id = some item.id := by
            simpa using hmatch
          have hfirst2 : ∀ j (hj : j < rest.length), j < i →
              (rest.get ⟨j, hj⟩).message_id ≠ some item.id := by
            intro j hj hji
            have := hfirst (j + 1) (by simpa using Nat.succ_lt_succ hj)
              (Nat.succ_lt_succ hji)
            simpa using this
          simp only [updateFirstMatch, if_neg hne]
          rw [ih item i hi2 hmatch2 hfirst2]
          rfl

/-! ### Claim theorems for pagination and the join -/

/-- C7: the pagination loop issues at most one GET per available page
and stops exactly when `links.next` is absent: a succeeding page whose
`links.next` is absent (or empty) ends the traversal right there with
that page merged in, while a succeeding page with a truthy `links.next`
always issues the next GET, continuing the traversal on the remaining
pages (so with that page merged in and one more GET counted); a
non-success page response ends the traversal returning exactly the
records accumulated so far; a single empty success page yields the
empty record list; and a concrete two-page chain is traversed in full,
in arrival order, with exactly two GETs. -/
theorem claim_C7_pagination_bounded_and_stops :
    (∀ pages acc, (harvestPages pages acc).2 ≤ pages.length) ∧
    (∀ page rest acc, page.status = 200 → nextTruthy page.next = false →
      harvestPages (page :: rest) acc =
        (page.included.foldl applyIncluded (acc ++ page.data.map mkCampaignInfo), 1)) ∧
    (∀ page rest acc, page.status ≠ 200 → harvestPages (page :: rest) acc = (acc, 1)) ∧
    harvestPages [ { status := 200, data := [], included := [], next := none } ] [] =
      ([], 1) ∧
    (∀ page rest acc, page.status = 200 → nextTruthy page.next = true →
      harvestPages (page :: rest) acc =
        ((harvestPages rest
            (page.included.foldl applyIncluded (acc ++ page.data.map mkCampaignInfo))).1,
         (harvestPages rest
            (page.included.foldl applyIncluded (acc ++ page.data.map mkCampaignInfo))).2
           + 1)) ∧
    ((harvestPages
        [ ⟨200, [ ⟨ "c1", "n1", "Sent", "", "", [] ⟩ ], [], some "page2"⟩,
          ⟨200, [ ⟨ "c2", "n2", "Sent", "", "", [] ⟩ ], [], none⟩ ] []).1.map
        (fun c => c.campaign_id),
     (harvestPages
        [ ⟨200, [ ⟨ "c1", "n1", "Sent", "", "", [] ⟩ ], [], some "page2"⟩,
          ⟨200, [ ⟨ "c2", "n2", "Sent", "", "", [] ⟩ ], [], none⟩ ] []).2) =
      ([ "c1", "c2" ], 2) := by
  refine ⟨fun pages acc => harvest_count_le pages acc, ?_, ?_, rfl, ?_, rfl⟩
  · intro page rest acc h200 hnext
    simp [harvestPages, h200, hnext]
  · intro page rest acc hbad
    simp [harvestPages, hbad]
  · intro page rest acc h200 hnext
    simp [harvestPages, h200, hnext]

/-- Witness for C7: two trivial pages cost at most two GETs; an error
page returns the empty accumulator; a page whose `links.next` is the
empty string stops after one page; a page with a truthy `links.next`
issues the second GET, so the two-page chain costs exactly two GETs. -/
theorem claim_C7_witness :
    (harvestPages [ ⟨200, [], [], none⟩, ⟨200, [], [], none⟩ ] []).2 ≤ 2 ∧
    harvestPages [ ⟨500, [], [], none⟩ ] [] = ([], 1) ∧
    harvestPages [ ⟨200, [], [], some ""⟩ ] [] = ([], 1) ∧
    harvestPages [ ⟨200, [], [], some "u2"⟩, ⟨200, [], [], none⟩ ] [] = ([], 2) :=
  ⟨claim_C7_pagination_bounded_and_stops.1 _ [],
   claim_C7_pagination_bounded_and_stops.2.2.1 _ [] [] (by decide),
   (claim_C7_pagination_bounded_and_stops.2.1 ⟨200, [], [], some ""⟩ [] [] rfl rfl).trans
     rfl,
   (claim_C7_pagination_bounded_and_stops.2.2.2.2.1 ⟨200, [], [], some "u2"⟩
       [ ⟨200, [], [], none⟩ ] [] rfl rfl).trans rfl⟩

/-- C9 counterexample: a harvested campaign that no included
campaign-message was joined to carries `None` in all four content
fields — not the empty string the claim asserts. -/
theorem claim_C9_counterexample :
    ((harvestPages [ ⟨200, [ ⟨ "c1", "n1", "Sent", "", "", [ "m1" ] ⟩ ], [], none⟩ ] []).1.map
        (fun c => (c.subject, c.preview_text, c.from_email, c.from_label))) =
      [ (none, none, none, none) ] ∧
    ((harvestPages [ ⟨200, [ ⟨ "c1", "n1", "Sent", "", "", [ "m1" ] ⟩ ], [], none⟩ ] []).1.map
        (fun c => c.subject)) ≠ [ some "" ] := by
  constructor
  · rfl
  · decide

/-- C9 amended: the four content fields start as `None` and stay `None`
until an included campaign-message is joined; a join always sets all
four to `some`-values, with a key missing from the content dictionary
defaulting to the empty string (so after a join they are never `None`,
but an unjoined record keeps `None`, which the CSV layer — outside the
engine — later renders as empty). -/
theorem claim_C9_content_defaults :
    (∀ c, (mkCampaignInfo c).subject = none ∧ (mkCampaignInfo c).preview_text = none ∧
      (mkCampaignInfo c).from_email = none ∧ (mkCampaignInfo c).from_label = none) ∧
    (∀ ci item,
      (updateContent ci item).subject = some (contentGet item.content "subject") ∧
      (updateContent ci item).preview_text = some (contentGet item.content "preview_text") ∧
      (updateContent ci item).from_email = some (contentGet item.content "from_email") ∧
      (updateContent ci item).from_label = some (contentGet item.content "from_label")) ∧
    (∀ content key, content.find? (fun p => p.1 = key) = none →
      contentGet content key = "") := by
  refine ⟨fun c => ⟨rfl, rfl, rfl, rfl⟩, fun ci item => ⟨rfl, rfl, rfl, rfl⟩, ?_⟩
  intro content key h
  simp [contentGet, h]

/-- Witness for the amended C9: a fresh record has `None` fields; a
join against an empty content dictionary yields `some ""` everywhere. -/
theorem claim_C9_witness :
    (mkCampaignInfo ⟨ "c1", "n1", "Sent", "", "", [ "m1" ] ⟩).subject = none ∧
    (updateContent (testCampaign "" "") ⟨ "campaign-message", "m1", [] ⟩).subject =
      some "" ∧
    contentGet [] "subject" = "" :=
  ⟨(claim_C9_content_defaults.1 ⟨ "c1", "n1", "Sent", "", "", [ "m1" ] ⟩).1,
   ((claim_C9_content_defaults.2.1 (testCampaign "" "")
       ⟨ "campaign-message", "m1", [] ⟩).1).trans rfl,
   claim_C9_content_defaults.2.2 [] "subject" rfl⟩

/-- C10: one included campaign-message entry updates exactly the first
record of the whole accumulated list whose `message_id` matches it,
leaving every other record untouched; and because the accumulator spans
all pages fetched so far, an inclusion arriving on a later page updates
the earliest matching record of an earlier page, not the current page's
duplicate. -/
theorem claim_C10_inclusion_updates_earliest_match :
    (∀ acc item i (hi : i < acc.length),
      item.type = "campaign-message" →
      (acc.get ⟨i, hi⟩).message_id = some item.id →
      (∀ j (hj : j < acc.length), j < i → (acc.get ⟨j, hj⟩).message_id ≠ some item.id) →
      applyIncluded acc item = acc.set i (updateContent (acc.get ⟨i, hi⟩) item)) ∧
    ((harvestPages
        [ ⟨200, [ ⟨ "c1", "n1", "Sent", "", "", [ "m1" ] ⟩ ], [], some "page2"⟩,
          ⟨200, [ ⟨ "c2", "n2", "Sent", "", "", [ "m1" ] ⟩ ],
            [ ⟨ "campaign-message", "m1", [ ( "subject", "S" ) ] ⟩ ], none⟩ ] []).1.map
        (fun c => (c.campaign_id, c.subject))) =
      [ ( "c1", some "S" ), ( "c2", none ) ] := by
  constructor
  · intro acc item i hi htype hmatch hfirst
    rw [applyIncluded, if_pos htype]
    exact updateFirstMatch_set acc item i hi hmatch hfirst
  · rfl

/-- Witness for C10: a singleton accumulator whose record references
message `"m1"` is rewritten in place by a matching inclusion entry. -/
theorem claim_C10_witness :
    applyIncluded [ mkCampaignInfo ⟨ "c1", "n1", "Sent", "", "", [ "m1" ] ⟩ ]
        ⟨ "campaign-message", "m1", [] ⟩ =
      [ updateContent (mkCampaignInfo ⟨ "c1", "n1", "Sent", "", "", [ "m1" ] ⟩)
          ⟨ "campaign-message", "m1", [] ⟩ ] :=
  (claim_C10_inclusion_updates_earliest_match.1
      [ mkCampaignInfo ⟨ "c1", "n1", "Sent", "", "", [ "m1" ] ⟩ ]
      ⟨ "campaign-message", "m1", [] ⟩ 0 (by norm_num) rfl rfl
      (fun j hj hlt => absurd hlt (Nat.not_lt_zero j))).trans rfl

end KlaviyoExport
